import Mathlib

/-!
Verification of the prompthub-api record store (src/src/main.rs).

The program is an HTTP CRUD service over one Postgres table `prompts`
with columns `id` (UUID primary key), `title`, `content`, `created_at`.
Each handler runs exactly one SQL statement.  We embed the table as a
list of rows and give each SQL statement from the source its standard
relational meaning over that list.  Each axum handler becomes a pure
function of the table state; the possibility that the storage layer
fails is embedded as an extra argument `io : Option String` carrying
the error description when the statement fails (`none` = statement
succeeded), mirroring the `map_err(|e| (500, e.to_string()))` lines.
-/

namespace PromptHub

/-- A UUID value, represented by its canonical string form
(the `uuid::Uuid` type of the source). -/
structure Uuid where
  val : String
deriving DecidableEq

/-- A UTC timestamp (the `DateTime<Utc>` of the source), abstracted
as a natural number of time units. -/
abbrev Timestamp := Nat

/-- The database model `Prompt` of the source (main.rs lines 15-21). -/
structure Prompt where
  id : Uuid
  title : String
  content : String
  created_at : Timestamp
deriving DecidableEq

/-- Request body for POST /prompts (`CreatePrompt` in the source). -/
structure CreatePrompt where
  title : String
  content : String
deriving DecidableEq

/-- Request body for PUT /prompts/:id (`UpdatePrompt` in the source). -/
structure UpdatePrompt where
  title : String
  content : String
deriving DecidableEq

/-- The state of the `prompts` table: its list of rows. -/
abbrev DB := List Prompt

/-- The ids of all stored rows. -/
def ids (db : DB) : List Uuid := db.map (fun r => r.id)

/-- Modelled from the spec: the persisted schema (not under src/) gives
`id` a generated-UUID default and `created_at` an insertion-time default,
so the statement `INSERT INTO prompts (title, content) VALUES ($1, $2)
RETURNING *` appends a row whose id and created_at are supplied by the
persistence layer; we pass them in as `newId` and `now`. -/
def insertPrompt (db : DB) (newId : Uuid) (now : Timestamp)
    (title content : String) : Prompt × DB :=
  let p : Prompt := ⟨newId, title, content, now⟩
  (p, db ++ [p])

/-- Meaning of `SELECT * FROM prompts` (list_prompts): every row,
in storage order. -/
def selectAll (db : DB) : List Prompt := db

/-- Meaning of `SELECT * FROM prompts WHERE id = $1` under
`fetch_optional` (get_prompt): the first row whose id matches, if any. -/
def selectById (db : DB) (id : Uuid) : Option Prompt :=
  db.find? (fun r => r.id == id)

/-- Meaning of `UPDATE prompts SET title = $1, content = $2 WHERE id = $3
RETURNING *` under `fetch_optional` (update_prompt): every matching row
gets the new title and content; the returned row is the first updated
row, if any. -/
def updateById (db : DB) (id : Uuid) (t c : String) : Option Prompt × DB :=
  let db' := db.map (fun r => if r.id = id then ⟨r.id, t, c, r.created_at⟩ else r)
  (db'.find? (fun r => r.id == id), db')

/-- Meaning of `DELETE FROM prompts WHERE id = $1` under `execute`
(delete_prompt): matching rows are removed; the first component is
`rows_affected()`. -/
def deleteById (db : DB) (id : Uuid) : Nat × DB :=
  ((db.filter (fun r => r.id == id)).length,
   db.filter (fun r => !(r.id == id)))

/-- The body of an HTTP response produced by the handlers: a serialized
Prompt, a serialized list of Prompts, free text, or nothing. -/
inductive Body where
  | promptJson : Prompt → Body
  | listJson : List Prompt → Body
  | text : String → Body
  | empty : Body
deriving DecidableEq

/-- An HTTP response: a status code and a body. -/
structure Response where
  status : Nat
  body : Body
deriving DecidableEq

/-- Handler for POST /prompts (main.rs `create_prompt`).  `io` is the
outcome of the storage layer: `some e` when the INSERT failed with
description `e` (the statement then has no effect on the table),
`none` when it succeeded. -/
def create_prompt (db : DB) (newId : Uuid) (now : Timestamp)
    (payload : CreatePrompt) (io : Option String) : Response × DB :=
  match io with
  | some e => (⟨500, Body.text e⟩, db)
  | none =>
    let r := insertPrompt db newId now payload.title payload.content
    (⟨201, Body.promptJson r.1⟩, r.2)

/-- Handler for GET /prompts (main.rs `list_prompts`). -/
def list_prompts (db : DB) (io : Option String) : Response × DB :=
  match io with
  | some e => (⟨500, Body.text e⟩, db)
  | none => (⟨200, Body.listJson (selectAll db)⟩, db)

/-- Handler for GET /prompts/:id (main.rs `get_prompt`). -/
def get_prompt (db : DB) (id : Uuid) (io : Option String) : Response × DB :=
  match io with
  | some e => (⟨500, Body.text e⟩, db)
  | none =>
    match selectById db id with
    | some p => (⟨200, Body.promptJson p⟩, db)
    | none => (⟨404, Body.text "Prompt not found"⟩, db)

/-- Handler for PUT /prompts/:id (main.rs `update_prompt`). -/
def update_prompt (db : DB) (id : Uuid) (payload : UpdatePrompt)
    (io : Option String) : Response × DB :=
  match io with
  | some e => (⟨500, Body.text e⟩, db)
  | none =>
    let r := updateById db id payload.title payload.content
    match r.1 with
    | some p => (⟨200, Body.promptJson p⟩, r.2)
    | none => (⟨404, Body.text "Prompt not found"⟩, r.2)

/-- Handler for DELETE /prompts/:id (main.rs `delete_prompt`). -/
def delete_prompt (db : DB) (id : Uuid) (io : Option String) : Response × DB :=
  match io with
  | some e => (⟨500, Body.text e⟩, db)
  | none =>
    let r := deleteById db id
    if r.1 = 0 then (⟨404, Body.text "Prompt not found"⟩, r.2)
    else (⟨204, Body.empty⟩, r.2)

/-- A hexadecimal digit, as accepted in a UUID string. -/
def isHexChar (c : Char) : Bool :=
  c.isDigit || (('a' ≤ c) && (c ≤ 'f')) || (('A' ≤ c) && (c ≤ 'F'))

/-- Modelled from the spec: the transport layer (axum `Path<Uuid>`
extraction, not under src/) accepts an id path segment exactly when it
is a canonical 8-4-4-4-12 hyphenated hexadecimal UUID string. -/
def isUuidString (s : String) : Bool :=
  s.length == 36 &&
  s.toList.enum.all (fun p =>
    if p.1 = 8 || p.1 = 13 || p.1 = 18 || p.1 = 23 then p.2 == '-'
    else isHexChar p.2)

/-- Modelled from the spec: parsing the `{id}` path segment as a UUID. -/
def parseUuid (s : String) : Option Uuid :=
  if isUuidString s then some ⟨s⟩ else none

/-- Modelled from the spec: the transport-level rejection the router
returns for a malformed `{id}` segment, before any handler runs. -/
def badRequest : Response := ⟨400, Body.text "Invalid URL"⟩

/-- Route dispatch for GET /prompts/:id on a raw path segment: the
handler runs only if the segment parses as a UUID. -/
def route_get_prompt (db : DB) (seg : String) (io : Option String) :
    Response × DB :=
  match parseUuid seg with
  | none => (badRequest, db)
  | some id => get_prompt db id io

/-- Route dispatch for PUT /prompts/:id on a raw path segment. -/
def route_update_prompt (db : DB) (seg : String) (payload : UpdatePrompt)
    (io : Option String) : Response × DB :=
  match parseUuid seg with
  | none => (badRequest, db)
  | some id => update_prompt db id payload io

/-- Route dispatch for DELETE /prompts/:id on a raw path segment. -/
def route_delete_prompt (db : DB) (seg : String) (io : Option String) :
    Response × DB :=
  match parseUuid seg with
  | none => (badRequest, db)
  | some id => delete_prompt db id io

/-- A sequence of successful Create calls: each list element supplies the
payload together with the id and timestamp the persistence layer assigns. -/
def createMany (inputs : List (Uuid × Timestamp × CreatePrompt)) (db : DB) : DB :=
  match inputs with
  | [] => db
  | (i, n, pl) :: rest => createMany rest (create_prompt db i n pl none).2

/-- A sample UUID used for concrete evaluations. -/
def uuidA : Uuid := ⟨"11111111-1111-1111-1111-111111111111"⟩

/-- A second, distinct sample UUID. -/
def uuidB : Uuid := ⟨"22222222-2222-2222-2222-222222222222"⟩

/-- A sample stored row. -/
def sampleRow : Prompt := ⟨uuidA, "t1", "c1", 5⟩

/-- A sample one-row table. -/
def sampleDb : DB := [sampleRow]

/-! Shared lemmas about the embedded SQL semantics. -/

/-- Membership in `ids` unfolds to a row with that id. -/
theorem mem_ids {db : DB} {id : Uuid} : id ∈ ids db ↔ ∃ r ∈ db, r.id = id := by
  simp [ids, List.mem_map]

/-- A lookup on an id that no row carries finds nothing. -/
theorem find_id_none {db : DB} {id : Uuid} (h : id ∉ ids db) :
    db.find? (fun r => r.id == id) = none := by
  rw [List.find?_eq_none]
  intro x hx
  simp only [beq_iff_eq]
  intro he
  exact h (mem_ids.2 ⟨x, hx, he⟩)

/-- When a row with the id is present, the DELETE statement affects at
least one row. -/
theorem deleteById_pos {db : DB} {id : Uuid} (h : id ∈ ids db) :
    (deleteById db id).1 ≠ 0 := by
  obtain ⟨r, hr, he⟩ := mem_ids.1 h
  have hm : r ∈ db.filter (fun r => r.id == id) :=
    List.mem_filter.2 ⟨hr, by simp [he]⟩
  have := List.length_pos_of_mem hm
  simp only [deleteById]
  omega

/-- The UPDATE statement rewrites the first matching row exactly as the
lookup finds it. -/
theorem find_update_eq (db : DB) (id : Uuid) (t c : String) :
    (db.map (fun r => if r.id = id then (⟨r.id, t, c, r.created_at⟩ : Prompt) else r)).find?
        (fun r => r.id == id) =
      (db.find? (fun r => r.id == id)).map
        (fun p => (⟨p.id, t, c, p.created_at⟩ : Prompt)) := by
  induction db with
  | nil => rfl
  | cons r rest ih =>
    simp only [List.map_cons, List.find?_cons]
    by_cases he : r.id = id
    · simp [he]
    · have hb : (r.id == id) = false := by
        cases hbe : r.id == id with
        | false => rfl
        | true => exact absurd (beq_iff_eq.1 hbe) he
      simp [he, ih, hb]

/-- The UPDATE statement leaves a table without the id unchanged. -/
theorem update_map_eq_self {db : DB} {id : Uuid} (t c : String)
    (h : id ∉ ids db) :
    db.map (fun r => if r.id = id then (⟨r.id, t, c, r.created_at⟩ : Prompt) else r) = db := by
  induction db with
  | nil => rfl
  | cons r rest ih =>
    have hr : r.id ≠ id := fun he =>
      h (mem_ids.2 ⟨r, List.mem_cons_self r rest, he⟩)
    have hrest : id ∉ ids rest := by
      intro hm
      obtain ⟨x, hx, he⟩ := mem_ids.1 hm
      exact h (mem_ids.2 ⟨x, List.mem_cons_of_mem r hx, he⟩)
    simp [hr, ih hrest]

/-- After the DELETE statement, no row carries the deleted id. -/
theorem not_mem_ids_deleted (db : DB) (id : Uuid) :
    id ∉ ids (db.filter (fun r => !(r.id == id))) := by
  intro hm
  obtain ⟨r, hr, he⟩ := mem_ids.1 hm
  have := (List.mem_filter.1 hr).2
  simp [he] at this

/-- The UPDATE statement preserves every row whose id differs. -/
theorem update_filter_ne (db : DB) (id : Uuid) (t c : String) :
    (db.map (fun r => if r.id = id then (⟨r.id, t, c, r.created_at⟩ : Prompt) else r)).filter
        (fun r => !(r.id == id)) =
      db.filter (fun r => !(r.id == id)) := by
  induction db with
  | nil => rfl
  | cons r rest ih =>
    simp only [List.map_cons, List.filter_cons]
    by_cases he : r.id = id
    · simp [he, ih]
    · simp [he, ih]

/-- Running n successful Creates appends the corresponding rows. -/
theorem createMany_rows (inputs : List (Uuid × Timestamp × CreatePrompt)) (db : DB) :
    createMany inputs db =
      db ++ inputs.map (fun x => (⟨x.1, x.2.2.title, x.2.2.content, x.2.1⟩ : Prompt)) := by
  induction inputs generalizing db with
  | nil => simp [createMany]
  | cons x rest ih =>
    obtain ⟨i, n, pl⟩ := x
    simp [createMany, create_prompt, insertPrompt, ih, List.append_assoc]

/-- On a table without the id, the DELETE statement affects zero rows
and leaves the table unchanged. -/
theorem deleteById_zero {db : DB} {id : Uuid} (h : id ∉ ids db) :
    deleteById db id = (0, db) := by
  have h1 : db.filter (fun r => r.id == id) = [] := by
    rw [List.filter_eq_nil_iff]
    intro a ha
    simp only [beq_iff_eq]
    intro he
    exact h (mem_ids.2 ⟨a, ha, he⟩)
  have h2 : db.filter (fun r => !(r.id == id)) = db := by
    rw [List.filter_eq_self]
    intro a ha
    cases hbe : a.id == id with
    | false => rfl
    | true => exact absurd (mem_ids.2 ⟨a, ha, beq_iff_eq.1 hbe⟩) h
  simp [deleteById, h1, h2]

/-- On an id no stored row carries, each of the three id-taking
handlers produces the 404 response and leaves the table unchanged. -/
theorem handlers_not_found (db : DB) (id : Uuid) (pl : UpdatePrompt)
    (h : id ∉ ids db) :
    get_prompt db id none = (⟨404, Body.text "Prompt not found"⟩, db) ∧
    update_prompt db id pl none = (⟨404, Body.text "Prompt not found"⟩, db) ∧
    delete_prompt db id none = (⟨404, Body.text "Prompt not found"⟩, db) := by
  refine ⟨?_, ?_, ?_⟩
  · simp [get_prompt, selectById, find_id_none h]
  · have h1 : (updateById db id pl.title pl.content).1 = none := by
      show (db.map _).find? _ = _
      rw [find_update_eq, find_id_none h]
      rfl
    have h2 : (updateById db id pl.title pl.content).2 = db :=
      update_map_eq_self pl.title pl.content h
    simp only [update_prompt]
    rw [h1, h2]
  · simp [delete_prompt, deleteById_zero h]

/-! Claim theorems. -/

/-- C1: Create(title, content) followed by Get on the id returned by
Create yields a Prompt with the same title, content and id as the one
Create returned; its created_at is set at creation time and an
immediately repeated Get returns the same created_at, Get never
changing the state. -/
theorem create_then_get_round_trip (db : DB) (newId : Uuid)
    (now : Timestamp) (pl : CreatePrompt) (h : newId ∉ ids db) :
    ∃ p : Prompt, ∃ db' : DB,
      create_prompt db newId now pl none = (⟨201, Body.promptJson p⟩, db') ∧
      p.id = newId ∧ p.title = pl.title ∧ p.content = pl.content ∧
      p.created_at = now ∧
      get_prompt db' p.id none = (⟨200, Body.promptJson p⟩, db') ∧
      get_prompt (get_prompt db' p.id none).2 p.id none =
        (⟨200, Body.promptJson p⟩, db') := by
  refine ⟨⟨newId, pl.title, pl.content, now⟩,
    db ++ [(⟨newId, pl.title, pl.content, now⟩ : Prompt)],
    rfl, rfl, rfl, rfl, rfl, ?_, ?_⟩ <;>
  · have hget : selectById (db ++ [(⟨newId, pl.title, pl.content, now⟩ : Prompt)]) newId =
        some ⟨newId, pl.title, pl.content, now⟩ := by
      simp [selectById, List.find?_append, find_id_none h]
    simp [get_prompt, hget]

/-- C1 witness: the round trip evaluated on the empty table. -/
theorem create_then_get_round_trip_witness :
    uuidA ∉ ids [] ∧
    (∃ p : Prompt, ∃ db' : DB,
      create_prompt [] uuidA 5 ⟨"t1", "c1"⟩ none = (⟨201, Body.promptJson p⟩, db') ∧
      p.id = uuidA ∧ p.title = "t1" ∧ p.content = "c1" ∧
      p.created_at = 5 ∧
      get_prompt db' p.id none = (⟨200, Body.promptJson p⟩, db') ∧
      get_prompt (get_prompt db' p.id none).2 p.id none =
        (⟨200, Body.promptJson p⟩, db')) :=
  ⟨by simp [ids], create_then_get_round_trip [] uuidA 5 ⟨"t1", "c1"⟩ (by simp [ids])⟩

/-- C8: every storage failure propagates unchanged to the transport
layer as a 500 response whose body is the underlying error description
verbatim, on all five routes, with the table state untouched. -/
theorem storage_error_propagates (db : DB) (e : String) (pl : CreatePrompt)
    (up : UpdatePrompt) (id newId : Uuid) (now : Timestamp) :
    create_prompt db newId now pl (some e) = (⟨500, Body.text e⟩, db) ∧
    list_prompts db (some e) = (⟨500, Body.text e⟩, db) ∧
    get_prompt db id (some e) = (⟨500, Body.text e⟩, db) ∧
    update_prompt db id up (some e) = (⟨500, Body.text e⟩, db) ∧
    delete_prompt db id (some e) = (⟨500, Body.text e⟩, db) :=
  ⟨rfl, rfl, rfl, rfl, rfl⟩

/-- C5: List returns every stored row; after N successful Creates on an
empty table it returns exactly N entries whose ids are the ids the
Create calls returned, and on an empty table it returns an empty
sequence with status 200, not an error. -/
theorem list_completeness (inputs : List (Uuid × Timestamp × CreatePrompt)) :
    (∀ db : DB, list_prompts db none = (⟨200, Body.listJson db⟩, db)) ∧
    (createMany inputs []).length = inputs.length ∧
    ids (createMany inputs []) = inputs.map (fun x => x.1) ∧
    list_prompts ([] : DB) none = (⟨200, Body.listJson []⟩, []) := by
  refine ⟨fun db => rfl, ?_, ?_, rfl⟩
  · simp [createMany_rows]
  · simp [createMany_rows, ids, List.map_map, Function.comp]

/-- C2: when a row with the id is stored, Update(id, t2, c2) replaces
title and content and keeps the row's id and created_at, so Get(id)
afterwards returns title=t2, content=c2, the same id and the same
created_at the row was created with. -/
theorem update_preserves_identity (db : DB) (id : Uuid) (p : Prompt)
    (pl : UpdatePrompt) (h : selectById db id = some p) :
    p.id = id ∧
    ∃ db' : DB,
      update_prompt db id pl none =
        (⟨200, Body.promptJson ⟨p.id, pl.title, pl.content, p.created_at⟩⟩, db') ∧
      get_prompt db' id none =
        (⟨200, Body.promptJson ⟨p.id, pl.title, pl.content, p.created_at⟩⟩, db') := by
  have hfind : db.find? (fun r => r.id == id) = some p := h
  have hpid : p.id = id := by
    have hb := List.find?_some hfind
    simpa using hb
  have h1 : (updateById db id pl.title pl.content).1 =
      some ⟨p.id, pl.title, pl.content, p.created_at⟩ := by
    show (db.map _).find? _ = _
    rw [find_update_eq, hfind]
    rfl
  refine ⟨hpid, (updateById db id pl.title pl.content).2, ?_, ?_⟩
  · simp only [update_prompt]
    rw [h1]
  · have h2 : selectById (updateById db id pl.title pl.content).2 id =
        some ⟨p.id, pl.title, pl.content, p.created_at⟩ := h1
    simp [get_prompt, h2]

/-- C2 witness: updating the sample row on the sample table. -/
theorem update_preserves_identity_witness :
    selectById sampleDb uuidA = some sampleRow ∧
    (sampleRow.id = uuidA ∧
    ∃ db' : DB,
      update_prompt sampleDb uuidA ⟨"t2", "c2"⟩ none =
        (⟨200, Body.promptJson
          ⟨sampleRow.id, "t2", "c2", sampleRow.created_at⟩⟩, db') ∧
      get_prompt db' uuidA none =
        (⟨200, Body.promptJson
          ⟨sampleRow.id, "t2", "c2", sampleRow.created_at⟩⟩, db')) :=
  ⟨by simp [selectById, sampleDb, sampleRow],
   update_preserves_identity sampleDb uuidA sampleRow ⟨"t2", "c2"⟩
     (by simp [selectById, sampleDb, sampleRow])⟩

/-- C3: once Delete(id) succeeds, Get(id) returns NotFound, Update(id)
returns NotFound, and a second Delete(id) returns NotFound, none of
them changing the state any further. -/
theorem delete_is_terminal (db : DB) (id : Uuid) (pl : UpdatePrompt)
    (h : id ∈ ids db) :
    ∃ db' : DB,
      delete_prompt db id none = (⟨204, Body.empty⟩, db') ∧
      get_prompt db' id none = (⟨404, Body.text "Prompt not found"⟩, db') ∧
      update_prompt db' id pl none = (⟨404, Body.text "Prompt not found"⟩, db') ∧
      delete_prompt db' id none = (⟨404, Body.text "Prompt not found"⟩, db') := by
  refine ⟨(deleteById db id).2, ?_, ?_, ?_, ?_⟩
  · simp [delete_prompt, deleteById_pos h]
  · have hn : id ∉ ids (deleteById db id).2 := not_mem_ids_deleted db id
    simp [get_prompt, selectById, find_id_none hn]
  · have hn : id ∉ ids (deleteById db id).2 := not_mem_ids_deleted db id
    have h1 : (updateById (deleteById db id).2 id pl.title pl.content).1 = none := by
      show ((deleteById db id).2.map _).find? _ = _
      rw [find_update_eq, find_id_none hn]
      rfl
    have h2 : (updateById (deleteById db id).2 id pl.title pl.content).2 =
        (deleteById db id).2 := update_map_eq_self pl.title pl.content hn
    simp only [update_prompt]
    rw [h1, h2]
  · have hn : id ∉ ids (deleteById db id).2 := not_mem_ids_deleted db id
    simp [delete_prompt, deleteById_zero hn]

/-- C3 witness: deleting the sample row, then probing with all three
operations. -/
theorem delete_is_terminal_witness :
    uuidA ∈ ids sampleDb ∧
    (∃ db' : DB,
      delete_prompt sampleDb uuidA none = (⟨204, Body.empty⟩, db') ∧
      get_prompt db' uuidA none = (⟨404, Body.text "Prompt not found"⟩, db') ∧
      update_prompt db' uuidA ⟨"t2", "c2"⟩ none =
        (⟨404, Body.text "Prompt not found"⟩, db') ∧
      delete_prompt db' uuidA none =
        (⟨404, Body.text "Prompt not found"⟩, db')) :=
  ⟨by simp [ids, sampleDb, sampleRow],
   delete_is_terminal sampleDb uuidA ⟨"t2", "c2"⟩
     (by simp [ids, sampleDb, sampleRow])⟩

/-- C4: on an id no stored row carries, Get, Update and Delete each
return the 404 NotFound response and leave the table unchanged; that
response is not the 500 storage-error response; and Delete returns 404
exactly when the DELETE statement affected zero rows, 204 otherwise. -/
theorem unknown_id_not_found (db : DB) (id : Uuid) (pl : UpdatePrompt)
    (h : id ∉ ids db) :
    get_prompt db id none = (⟨404, Body.text "Prompt not found"⟩, db) ∧
    update_prompt db id pl none = (⟨404, Body.text "Prompt not found"⟩, db) ∧
    delete_prompt db id none = (⟨404, Body.text "Prompt not found"⟩, db) ∧
    (get_prompt db id none).1.status ≠ 500 ∧
    (∀ db2 : DB, ((delete_prompt db2 id none).1.status = 404 ↔
      (deleteById db2 id).1 = 0)) ∧
    (∀ db2 : DB, (deleteById db2 id).1 ≠ 0 →
      (delete_prompt db2 id none).1 = ⟨204, Body.empty⟩) := by
  obtain ⟨hget, hupd, hdel⟩ := handlers_not_found db id pl h
  refine ⟨hget, hupd, hdel, by simp [hget], ?_, ?_⟩
  · intro db2
    by_cases hz : (deleteById db2 id).1 = 0 <;> simp [delete_prompt, hz]
  · intro db2 hz
    simp [delete_prompt, hz]

/-- C4 witness: probing the sample table with a fresh id. -/
theorem unknown_id_not_found_witness :
    uuidB ∉ ids sampleDb ∧
    (get_prompt sampleDb uuidB none =
      (⟨404, Body.text "Prompt not found"⟩, sampleDb) ∧
    update_prompt sampleDb uuidB ⟨"t2", "c2"⟩ none =
      (⟨404, Body.text "Prompt not found"⟩, sampleDb) ∧
    delete_prompt sampleDb uuidB none =
      (⟨404, Body.text "Prompt not found"⟩, sampleDb) ∧
    (get_prompt sampleDb uuidB none).1.status ≠ 500 ∧
    (∀ db2 : DB, ((delete_prompt db2 uuidB none).1.status = 404 ↔
      (deleteById db2 uuidB).1 = 0)) ∧
    (∀ db2 : DB, (deleteById db2 uuidB).1 ≠ 0 →
      (delete_prompt db2 uuidB none).1 = ⟨204, Body.empty⟩)) :=
  ⟨by simp [ids, sampleDb, sampleRow, uuidA, uuidB],
   unknown_id_not_found sampleDb uuidB ⟨"t2", "c2"⟩
     (by simp [ids, sampleDb, sampleRow, uuidA, uuidB])⟩

/-- C6: a successful Create inserts exactly one new row carrying the
freshly generated id and the insertion-time timestamp, returns the
fully populated Prompt, and keeps ids unique: if the generated id is
fresh and the stored ids were pairwise distinct, they remain so. -/
theorem create_inserts_fresh_row (db : DB) (newId : Uuid) (now : Timestamp)
    (pl : CreatePrompt) (h1 : newId ∉ ids db) (h2 : (ids db).Nodup) :
    create_prompt db newId now pl none =
      (⟨201, Body.promptJson ⟨newId, pl.title, pl.content, now⟩⟩,
        db ++ [(⟨newId, pl.title, pl.content, now⟩ : Prompt)]) ∧
    newId ∈ ids (create_prompt db newId now pl none).2 ∧
    (ids (create_prompt db newId now pl none).2).Nodup := by
  refine ⟨rfl, ?_, ?_⟩
  · simp [create_prompt, insertPrompt, ids]
  · show (ids (db ++ [(⟨newId, pl.title, pl.content, now⟩ : Prompt)])).Nodup
    have hids : ids (db ++ [(⟨newId, pl.title, pl.content, now⟩ : Prompt)]) =
        ids db ++ [newId] := by
      simp [ids]
    rw [hids, List.nodup_append]
    refine ⟨h2, List.nodup_singleton newId, ?_⟩
    intro a ha hb
    rw [List.mem_singleton] at hb
    exact h1 (hb ▸ ha)

/-- C6 witness: creating a second row on the sample table. -/
theorem create_inserts_fresh_row_witness :
    uuidB ∉ ids sampleDb ∧ (ids sampleDb).Nodup ∧
    (create_prompt sampleDb uuidB 9 ⟨"t2", "c2"⟩ none =
      (⟨201, Body.promptJson ⟨uuidB, "t2", "c2", 9⟩⟩,
        sampleDb ++ [(⟨uuidB, "t2", "c2", 9⟩ : Prompt)]) ∧
    uuidB ∈ ids (create_prompt sampleDb uuidB 9 ⟨"t2", "c2"⟩ none).2 ∧
    (ids (create_prompt sampleDb uuidB 9 ⟨"t2", "c2"⟩ none).2).Nodup) :=
  ⟨by simp [ids, sampleDb, sampleRow, uuidA, uuidB],
   by simp [ids, sampleDb],
   create_inserts_fresh_row sampleDb uuidB 9 ⟨"t2", "c2"⟩
     (by simp [ids, sampleDb, sampleRow, uuidA, uuidB])
     (by simp [ids, sampleDb])⟩

/-- C7: the HTTP layer maps outcomes to statuses exactly as specified:
successful POST gives 201 with the Prompt JSON, successful DELETE gives
204 with an empty body, GET/PUT/DELETE on an absent id give 404, and a
storage failure on any of the five routes gives 500. -/
theorem http_status_mapping (db : DB) (pl : CreatePrompt) (up : UpdatePrompt)
    (newId idA idB : Uuid) (now : Timestamp) (e : String)
    (hA : idA ∈ ids db) (hB : idB ∉ ids db) :
    (create_prompt db newId now pl none).1 =
      ⟨201, Body.promptJson ⟨newId, pl.title, pl.content, now⟩⟩ ∧
    (delete_prompt db idA none).1 = ⟨204, Body.empty⟩ ∧
    (get_prompt db idB none).1.status = 404 ∧
    (update_prompt db idB up none).1.status = 404 ∧
    (delete_prompt db idB none).1.status = 404 ∧
    (create_prompt db newId now pl (some e)).1.status = 500 ∧
    (list_prompts db (some e)).1.status = 500 ∧
    (get_prompt db idA (some e)).1.status = 500 ∧
    (update_prompt db idA up (some e)).1.status = 500 ∧
    (delete_prompt db idA (some e)).1.status = 500 := by
  obtain ⟨hget, hupd, hdel⟩ := handlers_not_found db idB up hB
  exact ⟨rfl,
    by simp [delete_prompt, deleteById_pos hA],
    by rw [hget],
    by rw [hupd],
    by rw [hdel],
    rfl, rfl, rfl, rfl, rfl⟩

/-- C7 witness: the status mapping evaluated on the sample table. -/
theorem http_status_mapping_witness :
    uuidA ∈ ids sampleDb ∧ uuidB ∉ ids sampleDb ∧
    ((create_prompt sampleDb uuidB 9 ⟨"t2", "c2"⟩ none).1 =
      ⟨201, Body.promptJson ⟨uuidB, "t2", "c2", 9⟩⟩ ∧
    (delete_prompt sampleDb uuidA none).1 = ⟨204, Body.empty⟩ ∧
    (get_prompt sampleDb uuidB none).1.status = 404 ∧
    (update_prompt sampleDb uuidB ⟨"t2", "c2"⟩ none).1.status = 404 ∧
    (delete_prompt sampleDb uuidB none).1.status = 404 ∧
    (create_prompt sampleDb uuidB 9 ⟨"t2", "c2"⟩ (some "db down")).1.status = 500 ∧
    (list_prompts sampleDb (some "db down")).1.status = 500 ∧
    (get_prompt sampleDb uuidA (some "db down")).1.status = 500 ∧
    (update_prompt sampleDb uuidA ⟨"t2", "c2"⟩ (some "db down")).1.status = 500 ∧
    (delete_prompt sampleDb uuidA (some "db down")).1.status = 500) :=
  ⟨by simp [ids, sampleDb, sampleRow],
   by simp [ids, sampleDb, sampleRow, uuidA, uuidB],
   http_status_mapping sampleDb ⟨"t2", "c2"⟩ ⟨"t2", "c2"⟩ uuidB uuidA uuidB 9
     "db down"
     (by simp [ids, sampleDb, sampleRow])
     (by simp [ids, sampleDb, sampleRow, uuidA, uuidB])⟩

/-- C9: a GET/PUT/DELETE request whose id path segment does not parse
as a UUID is answered by the transport-level rejection before any
handler runs: the state is untouched and the response is neither the
Record Service 404 NotFound nor a 500 PersistenceError. -/
theorem malformed_id_rejected (db : DB) (seg : String) (up : UpdatePrompt)
    (io : Option String) (h : parseUuid seg = none) :
    route_get_prompt db seg io = (badRequest, db) ∧
    route_update_prompt db seg up io = (badRequest, db) ∧
    route_delete_prompt db seg io = (badRequest, db) ∧
    badRequest.status ≠ 404 ∧ badRequest.status ≠ 500 ∧
    badRequest.body ≠ Body.text "Prompt not found" := by
  refine ⟨?_, ?_, ?_, by decide, by decide, by decide⟩ <;>
    simp [route_get_prompt, route_update_prompt, route_delete_prompt, h]

/-- C9 witness: the segment abc is not a UUID and is rejected on all
three id routes. -/
theorem malformed_id_rejected_witness :
    parseUuid "abc" = none ∧
    (route_get_prompt sampleDb "abc" none = (badRequest, sampleDb) ∧
    route_update_prompt sampleDb "abc" ⟨"t2", "c2"⟩ none = (badRequest, sampleDb) ∧
    route_delete_prompt sampleDb "abc" none = (badRequest, sampleDb) ∧
    badRequest.status ≠ 404 ∧ badRequest.status ≠ 500 ∧
    badRequest.body ≠ Body.text "Prompt not found") :=
  ⟨by decide,
   malformed_id_rejected sampleDb "abc" ⟨"t2", "c2"⟩ none (by decide)⟩

/-- C10: every operation touches at most the single row matching its
id argument: Get and List never change the state, Update and Delete
preserve every row whose id differs (Update also preserves the row
count, Delete never grows it), and a successful Create appends exactly
one row. -/
theorem single_row_frame (db : DB) (id newId : Uuid) (now : Timestamp)
    (pl : CreatePrompt) (up : UpdatePrompt) (io : Option String) :
    (get_prompt db id io).2 = db ∧
    (list_prompts db io).2 = db ∧
    (update_prompt db id up io).2.filter (fun r => !(r.id == id)) =
      db.filter (fun r => !(r.id == id)) ∧
    (update_prompt db id up io).2.length = db.length ∧
    (delete_prompt db id io).2.filter (fun r => !(r.id == id)) =
      db.filter (fun r => !(r.id == id)) ∧
    (delete_prompt db id io).2.length ≤ db.length ∧
    (create_prompt db newId now pl none).2 =
      db ++ [(⟨newId, pl.title, pl.content, now⟩ : Prompt)] := by
  cases io with
  | some e => exact ⟨rfl, rfl, rfl, rfl, rfl, Nat.le_refl _, rfl⟩
  | none =>
    have hupd : (update_prompt db id up none).2 =
        (updateById db id up.title up.content).2 := by
      simp only [update_prompt]
      cases hu : (updateById db id up.title up.content).1 <;> simp [hu]
    have hdel : (delete_prompt db id none).2 = (deleteById db id).2 := by
      simp only [delete_prompt]
      by_cases hz : (deleteById db id).1 = 0 <;> simp [hz]
    refine ⟨?_, rfl, ?_, ?_, ?_, ?_, rfl⟩
    · cases hs : selectById db id <;> simp [get_prompt, hs]
    · rw [hupd]
      exact update_filter_ne db id up.title up.content
    · rw [hupd]
      simp [updateById]
    · rw [hdel]
      show ((db.filter _).filter _) = _
      rw [List.filter_filter]
      simp
    · rw [hdel]
      exact List.length_filter_le _ db

end PromptHub
